import Mathlib

/-!
Shallow embedding of the `py-burnin-plugin` package: the shared-memory
record layout (`PluginInterfaceStructure`), the typed accessor layer
(`PluginInterface` methods), the string sanitizer (`strn_clean_cpy`) and
the plugin lifecycle engine (`BurnInPlugin`).  Python byte strings are
modelled as `List Nat` (one entry per byte) and Python `str` as Lean
`String` (one entry per code point; the development only exercises ASCII
data, where CPython's `encode`/`decode('utf-8')` are byte-per-char).
-/

set_option maxRecDepth 4000

/-! ## Constants (`core/common.py`) -/

def PLUGIN_MAXDISPLAYTEXT : Nat := 20
def PLUGIN_MAXERRORTEXT : Nat := 100
def PLUGIN_MAXERRORTEXTLONG : Nat := 201

/-- `ErrorSeverity` enumeration from `core/common.py`. -/
inductive ErrorSeverity where
  | none_
  | information
  | warning
  | serious
  | critical
  | terminal
deriving DecidableEq, Repr

def ErrorSeverity.toInt : ErrorSeverity → Int
  | .none_ => 0
  | .information => 1
  | .warning => 2
  | .serious => 3
  | .critical => 4
  | .terminal => 5

/-- `ErrorSeverity(v)`: Python enum lookup, `ValueError` (none) off-range. -/
def ErrorSeverity.ofInt? (v : Int) : Option ErrorSeverity :=
  if v = 0 then some .none_
  else if v = 1 then some .information
  else if v = 2 then some .warning
  else if v = 3 then some .serious
  else if v = 4 then some .critical
  else if v = 5 then some .terminal
  else none

/-- `StatusCode` enumeration from `core/common.py`. -/
inductive StatusCode where
  | plugin_nostatus
  | plugin_startup
  | plugin_allocate
  | plugin_writing
  | plugin_reading
  | plugin_verifying
  | plugin_waiting
  | plugin_cleanup
  | plugin_error
  | pre_test_plugin_completed
  | plugin_maxval
deriving DecidableEq, Repr

def StatusCode.toInt : StatusCode → Int
  | .plugin_nostatus => 0
  | .plugin_startup => 1
  | .plugin_allocate => 2
  | .plugin_writing => 3
  | .plugin_reading => 4
  | .plugin_verifying => 5
  | .plugin_waiting => 6
  | .plugin_cleanup => 7
  | .plugin_error => 8
  | .pre_test_plugin_completed => 9
  | .plugin_maxval => 10

/-- `StatusCode(v)`: Python enum lookup, `ValueError` (none) off-range. -/
def StatusCode.ofInt? (v : Int) : Option StatusCode :=
  if v = 0 then some .plugin_nostatus
  else if v = 1 then some .plugin_startup
  else if v = 2 then some .plugin_allocate
  else if v = 3 then some .plugin_writing
  else if v = 4 then some .plugin_reading
  else if v = 5 then some .plugin_verifying
  else if v = 6 then some .plugin_waiting
  else if v = 7 then some .plugin_cleanup
  else if v = 8 then some .plugin_error
  else if v = 9 then some .pre_test_plugin_completed
  else if v = 10 then some .plugin_maxval
  else none

/-! ## Python string / ctypes helpers -/

/-- `str.encode()` of an ASCII string: one byte per character. -/
def pyEncode (s : String) : List Nat := s.data.map Char.toNat

/-- `bytes.decode('utf-8', errors='ignore')` restricted to the ASCII
bytes this development exercises: non-ASCII bytes are dropped, the rest
map byte-per-char. -/
def pyDecode (b : List Nat) : String :=
  String.mk ((b.filter (fun c => c < 0x80)).map Char.ofNat)

/-- Reading a `c_char * N` structure field in ctypes yields the stored
bytes truncated at the first NUL. -/
def cValue (b : List Nat) : List Nat := b.takeWhile (fun c => !(c == 0))

/-- `str.rstrip(chr(0))` on the decoded text. -/
def rstripNull (s : String) : String :=
  String.mk ((s.data.reverse.dropWhile (fun c => c == '\x00')).reverse)

/-- The read path of every text getter:
`field.decode('utf-8', errors='ignore').rstrip(chr(0))` applied to the
ctypes read of a `c_char * N` field. -/
def readCStr (b : List Nat) : String := rstripNull (pyDecode (cValue b))

/-- Assigning `bytes` to a `c_char * width` structure field (CPython
`s_set`): a payload longer than `width` raises `ValueError` (none); a
payload of exactly `width` bytes is copied with no terminator; a shorter
payload is copied together with one terminating NUL, and the remaining
tail bytes of the field keep their previous contents (`old`). -/
def cStore (old b : List Nat) (width : Nat) : Option (List Nat) :=
  if b.length ≤ width then
    some (if b.length < width then b ++ 0 :: old.drop (b.length + 1) else b)
  else none

/-- 32-bit signed wrap-around of a ctypes `c_int` store. -/
def wrap32 (v : Int) : Int := (v + 2 ^ 31) % 2 ^ 32 - 2 ^ 31

/-- `lst[:i]` for a possibly negative Python slice bound. -/
def pyTakeInt (l : List Nat) (i : Int) : List Nat :=
  if 0 ≤ i then l.take i.toNat else l.take (l.length - i.natAbs)

/-! ## String sanitizer (`utils/string_utils.py`) -/

/-- The copy loop of `strn_clean_cpy`: walks at most `fuel` input bytes,
stops at a NUL byte, replaces control bytes (`< 0x20`) with a space.
Note on the source: the loop's test reads
`if c < 0x20 or c in (b'%', b'\x5c'):` where `c` is an `int`
(indexing a `bytes` yields `int`) while the tuple holds length-1 `bytes`
objects, so the membership test is always false in Python — only
`c < 0x20` has any effect.  Similarly `c == b'\x5c0'` in the
termination test is always false; only `c == 0` has effect. -/
def clean_loop : List Nat → Nat → List Nat
  | _, 0 => []
  | [], _ => []
  | c :: rest, fuel + 1 =>
    if c = 0 then []
    else (if c < 0x20 then 0x20 else c) :: clean_loop rest fuel

/-- `strn_clean_cpy(text_out, text_in, max_len)` from
`utils/string_utils.py`, returning the `max_len` bytes written to
`text_out`: truncate the input to `max_len - 1` bytes (a Python slice,
so `-1` for `max_len = 0`), run the cleaning loop, zero-pad to
`max_len`, `memmove` exactly `max_len` bytes. -/
def strn_clean_cpy (text_in : List Nat) (max_len : Nat) : List Nat :=
  let t := pyTakeInt text_in ((max_len : Int) - 1)
  let cleaned := clean_loop t max_len
  let padded :=
    if cleaned.length < max_len then cleaned ++ List.replicate (max_len - cleaned.length) 0
    else cleaned
  padded.take max_len

/-- The sanitizer as the specification describes it (for comparison with
`strn_clean_cpy`): truncate to `width - 1` bytes, replace every byte
below `0x20` or equal to `0x25` (percent) or `0x5C` (backslash) with a
space, zero-pad to exactly `width` bytes. -/
def sanitize_spec (text_in : List Nat) (width : Nat) : List Nat :=
  let t := text_in.take (width - 1)
  let cleaned := t.map (fun c => if c < 0x20 ∨ c = 0x25 ∨ c = 0x5C then 0x20 else c)
  cleaned ++ List.replicate (width - cleaned.length) 0

/-! ## Record layout (`core/interface.py`, `PluginInterfaceStructure`) -/

structure PluginInterfaceStructure where
  IN_TestRunning : Int
  IN_DutyCycle : Int
  OUT_Plugin_interface_version : Int
  OUT_szWindowTitle : List Nat
  OUT_iCycle : Nat
  OUT_iStatus : Int
  OUT_szStatus : List Nat
  OUT_iErrorCount : Int
  OUT_szError : List Nat
  OUT_iErrorSeverity : Int
  OUT_szWriteOps : List Nat
  OUT_i64WriteOps : Int
  OUT_szReadOps : List Nat
  OUT_i64ReadOps : Int
  OUT_szVerifyOps : List Nat
  OUT_i64VerifyOps : Int
  OUT_bUserDef1 : Bool
  OUT_szUserDef1 : List Nat
  OUT_szUserDefVal1 : List Nat
  OUT_bUserDef2 : Bool
  OUT_szUserDef2 : List Nat
  OUT_szUserDefVal2 : List Nat
  OUT_bDisplayTextSet : Bool
  OUT_bNewError : Bool
  OUT_bNewStatus : Bool
  OUT_bNewUserDefVal1 : Bool
  OUT_bNewUserDefVal2 : Bool
  OUT_bTestStopped : Bool
  OUT_bUserDef3 : Bool
  OUT_szUserDef3 : List Nat
  OUT_szUserDefVal3 : List Nat
  OUT_bUserDef4 : Bool
  OUT_szUserDef4 : List Nat
  OUT_szUserDefVal4 : List Nat
  OUT_bUserDef5 : Bool
  OUT_szUserDef5 : List Nat
  OUT_szUserDefVal5 : List Nat
  OUT_bUserDef6 : Bool
  OUT_szUserDef6 : List Nat
  OUT_szUserDefVal6 : List Nat
  OUT_szErrorLong : List Nat
deriving DecidableEq, Repr

/-- A freshly created shared block: every byte zero (as produced by
`mmap` in `standalone_test.py` before the host arms it). -/
def zeroRecord : PluginInterfaceStructure where
  IN_TestRunning := 0
  IN_DutyCycle := 0
  OUT_Plugin_interface_version := 0
  OUT_szWindowTitle := List.replicate PLUGIN_MAXDISPLAYTEXT 0
  OUT_iCycle := 0
  OUT_iStatus := 0
  OUT_szStatus := List.replicate PLUGIN_MAXDISPLAYTEXT 0
  OUT_iErrorCount := 0
  OUT_szError := List.replicate PLUGIN_MAXERRORTEXT 0
  OUT_iErrorSeverity := 0
  OUT_szWriteOps := List.replicate PLUGIN_MAXDISPLAYTEXT 0
  OUT_i64WriteOps := 0
  OUT_szReadOps := List.replicate PLUGIN_MAXDISPLAYTEXT 0
  OUT_i64ReadOps := 0
  OUT_szVerifyOps := List.replicate PLUGIN_MAXDISPLAYTEXT 0
  OUT_i64VerifyOps := 0
  OUT_bUserDef1 := false
  OUT_szUserDef1 := List.replicate PLUGIN_MAXDISPLAYTEXT 0
  OUT_szUserDefVal1 := List.replicate PLUGIN_MAXDISPLAYTEXT 0
  OUT_bUserDef2 := false
  OUT_szUserDef2 := List.replicate PLUGIN_MAXDISPLAYTEXT 0
  OUT_szUserDefVal2 := List.replicate PLUGIN_MAXDISPLAYTEXT 0
  OUT_bDisplayTextSet := false
  OUT_bNewError := false
  OUT_bNewStatus := false
  OUT_bNewUserDefVal1 := false
  OUT_bNewUserDefVal2 := false
  OUT_bTestStopped := false
  OUT_bUserDef3 := false
  OUT_szUserDef3 := List.replicate PLUGIN_MAXDISPLAYTEXT 0
  OUT_szUserDefVal3 := List.replicate PLUGIN_MAXDISPLAYTEXT 0
  OUT_bUserDef4 := false
  OUT_szUserDef4 := List.replicate PLUGIN_MAXDISPLAYTEXT 0
  OUT_szUserDefVal4 := List.replicate PLUGIN_MAXDISPLAYTEXT 0
  OUT_bUserDef5 := false
  OUT_szUserDef5 := List.replicate PLUGIN_MAXDISPLAYTEXT 0
  OUT_szUserDefVal5 := List.replicate PLUGIN_MAXDISPLAYTEXT 0
  OUT_bUserDef6 := false
  OUT_szUserDef6 := List.replicate PLUGIN_MAXDISPLAYTEXT 0
  OUT_szUserDefVal6 := List.replicate PLUGIN_MAXDISPLAYTEXT 0
  OUT_szErrorLong := List.replicate PLUGIN_MAXERRORTEXTLONG 0


/-! ## Accessor layer (`core/interface.py`, class `PluginInterface`)

Each mutating method is a function from the structure (plus arguments)
to a `PySetResult`: the structure as left when the method returns or
raises, together with the Python exception if one was raised.  The
returned state matters on the error path because some methods mutate
part of the structure before failing. -/

inductive PyErr where
  | validationError (msg : String)
  | valueError (msg : String)
deriving DecidableEq, Repr

/-- Python `str(e)`: `PluginError.__str__` renders
`"[{severity.name}] {message}"` and `ValidationError` carries severity
WARNING; a ctypes `ValueError` renders its plain message. -/
def pyErrStr : PyErr → String
  | .validationError m => "[WARNING] " ++ m
  | .valueError m => m

structure PySetResult where
  state : PluginInterfaceStructure
  err : Option PyErr
deriving DecidableEq, Repr

/-- The `status` property setter: validate `len < PLUGIN_MAXDISPLAYTEXT`,
write `status.encode()` to `OUT_szStatus`, then set `OUT_bNewStatus`. -/
def status_setter (s : PluginInterfaceStructure) (status : String) : PySetResult :=
  if PLUGIN_MAXDISPLAYTEXT ≤ status.length then
    ⟨s, some (.validationError "Status must be less than 20 characters")⟩
  else
    match cStore s.OUT_szStatus (pyEncode status) PLUGIN_MAXDISPLAYTEXT with
    | none => ⟨s, some (.valueError "byte string too long")⟩
    | some b => ⟨{ s with OUT_szStatus := b, OUT_bNewStatus := true }, none⟩

/-- The `status` property getter. -/
def status_getter (s : PluginInterfaceStructure) : String := readCStr s.OUT_szStatus

/-- The `error_message` property setter: validate
`len < PLUGIN_MAXERRORTEXT`, write to `OUT_szError`, set `OUT_bNewError`. -/
def error_message_setter (s : PluginInterfaceStructure) (message : String) : PySetResult :=
  if PLUGIN_MAXERRORTEXT ≤ message.length then
    ⟨s, some (.validationError "Error message must be less than 100 characters")⟩
  else
    match cStore s.OUT_szError (pyEncode message) PLUGIN_MAXERRORTEXT with
    | none => ⟨s, some (.valueError "byte string too long")⟩
    | some b => ⟨{ s with OUT_szError := b, OUT_bNewError := true }, none⟩

/-- The `error_message` property getter. -/
def error_message_getter (s : PluginInterfaceStructure) : String := readCStr s.OUT_szError

/-- The `error_long` property setter: validate
`len < PLUGIN_MAXERRORTEXTLONG`, write to `OUT_szErrorLong`; no flag. -/
def error_long_setter (s : PluginInterfaceStructure) (message : String) : PySetResult :=
  if PLUGIN_MAXERRORTEXTLONG ≤ message.length then
    ⟨s, some (.validationError "Error message must be less than 201 characters")⟩
  else
    match cStore s.OUT_szErrorLong (pyEncode message) PLUGIN_MAXERRORTEXTLONG with
    | none => ⟨s, some (.valueError "byte string too long")⟩
    | some b => ⟨{ s with OUT_szErrorLong := b }, none⟩

/-- The `error_long` property getter. -/
def error_long_getter (s : PluginInterfaceStructure) : String := readCStr s.OUT_szErrorLong

/-- `_validate_label`: `ValidationError` when
`len(label) >= PLUGIN_MAXDISPLAYTEXT`. -/
def validate_label (label : String) : Option PyErr :=
  if PLUGIN_MAXDISPLAYTEXT ≤ label.length then
    some (.validationError "Label must be less than 20 characters")
  else none

/-- The `window_title` property setter: `_validate_label` then write to
`OUT_szWindowTitle`; no flag. -/
def window_title_setter (s : PluginInterfaceStructure) (title : String) : PySetResult :=
  match validate_label title with
  | some e => ⟨s, some e⟩
  | none =>
    match cStore s.OUT_szWindowTitle (pyEncode title) PLUGIN_MAXDISPLAYTEXT with
    | none => ⟨s, some (.valueError "byte string too long")⟩
    | some b => ⟨{ s with OUT_szWindowTitle := b }, none⟩

def window_title_getter (s : PluginInterfaceStructure) : String := readCStr s.OUT_szWindowTitle

/-- The `write_label` property setter. -/
def write_label_setter (s : PluginInterfaceStructure) (label : String) : PySetResult :=
  match validate_label label with
  | some e => ⟨s, some e⟩
  | none =>
    match cStore s.OUT_szWriteOps (pyEncode label) PLUGIN_MAXDISPLAYTEXT with
    | none => ⟨s, some (.valueError "byte string too long")⟩
    | some b => ⟨{ s with OUT_szWriteOps := b }, none⟩

def write_label_getter (s : PluginInterfaceStructure) : String := readCStr s.OUT_szWriteOps

/-- The `read_label` property setter. -/
def read_label_setter (s : PluginInterfaceStructure) (label : String) : PySetResult :=
  match validate_label label with
  | some e => ⟨s, some e⟩
  | none =>
    match cStore s.OUT_szReadOps (pyEncode label) PLUGIN_MAXDISPLAYTEXT with
    | none => ⟨s, some (.valueError "byte string too long")⟩
    | some b => ⟨{ s with OUT_szReadOps := b }, none⟩

def read_label_getter (s : PluginInterfaceStructure) : String := readCStr s.OUT_szReadOps

/-- The `verify_label` property setter. -/
def verify_label_setter (s : PluginInterfaceStructure) (label : String) : PySetResult :=
  match validate_label label with
  | some e => ⟨s, some e⟩
  | none =>
    match cStore s.OUT_szVerifyOps (pyEncode label) PLUGIN_MAXDISPLAYTEXT with
    | none => ⟨s, some (.valueError "byte string too long")⟩
    | some b => ⟨{ s with OUT_szVerifyOps := b }, none⟩

def verify_label_getter (s : PluginInterfaceStructure) : String := readCStr s.OUT_szVerifyOps

/-- The `status_code` property getter: `StatusCode(OUT_iStatus)` raises
`ValueError` when the raw integer is not an enumeration member. -/
def status_code_getter (s : PluginInterfaceStructure) : Except PyErr StatusCode :=
  match StatusCode.ofInt? s.OUT_iStatus with
  | some c => .ok c
  | none => .error (.valueError "is not a valid StatusCode")

/-- The `status_code` property setter. -/
def status_code_setter (s : PluginInterfaceStructure) (code : StatusCode) :
    PluginInterfaceStructure :=
  { s with OUT_iStatus := code.toInt }

/-- The `error_severity` property getter: `ErrorSeverity(OUT_iErrorSeverity)`
raises `ValueError` when the raw integer is not an enumeration member. -/
def error_severity_getter (s : PluginInterfaceStructure) : Except PyErr ErrorSeverity :=
  match ErrorSeverity.ofInt? s.OUT_iErrorSeverity with
  | some c => .ok c
  | none => .error (.valueError "is not a valid ErrorSeverity")

/-- The `error_severity` property setter (an `ErrorSeverity` argument
always passes the isinstance check). -/
def error_severity_setter (s : PluginInterfaceStructure) (severity : ErrorSeverity) :
    PluginInterfaceStructure :=
  { s with OUT_iErrorSeverity := severity.toInt }

/-- The `error_count` property setter: reject negatives, store as c_int. -/
def error_count_setter (s : PluginInterfaceStructure) (count : Int) : PySetResult :=
  if count < 0 then
    ⟨s, some (.validationError "Error count must be a non-negative integer")⟩
  else ⟨{ s with OUT_iErrorCount := wrap32 count }, none⟩

/-- `increment_cycle`: `OUT_iCycle += 1` on a ctypes `c_uint`. -/
def increment_cycle (s : PluginInterfaceStructure) : PluginInterfaceStructure :=
  { s with OUT_iCycle := (s.OUT_iCycle + 1) % 2 ^ 32 }

/-- The `test_stopped` property setter. -/
def test_stopped_setter (s : PluginInterfaceStructure) (stopped : Bool) :
    PluginInterfaceStructure :=
  { s with OUT_bTestStopped := stopped }

/-- The `display_text_set` property setter. -/
def display_text_set_setter (s : PluginInterfaceStructure) (flag : Bool) :
    PluginInterfaceStructure :=
  { s with OUT_bDisplayTextSet := flag }

/-- `reset_flags`: clear the four notification flags. -/
def reset_flags (s : PluginInterfaceStructure) : PluginInterfaceStructure :=
  { s with
    OUT_bNewError := false
    OUT_bNewStatus := false
    OUT_bNewUserDefVal1 := false
    OUT_bNewUserDefVal2 := false }

/-- The per-slot attribute writes of `set_user_field`, keyed by the
`field_map` of `core/interface.py`. -/
def writeUserLabel (field_id : Int) (b : List Nat) (s : PluginInterfaceStructure) :
    PluginInterfaceStructure :=
  if field_id = 1 then { s with OUT_szUserDef1 := b }
  else if field_id = 2 then { s with OUT_szUserDef2 := b }
  else if field_id = 3 then { s with OUT_szUserDef3 := b }
  else if field_id = 4 then { s with OUT_szUserDef4 := b }
  else if field_id = 5 then { s with OUT_szUserDef5 := b }
  else { s with OUT_szUserDef6 := b }

def writeUserValue (field_id : Int) (b : List Nat) (s : PluginInterfaceStructure) :
    PluginInterfaceStructure :=
  if field_id = 1 then { s with OUT_szUserDefVal1 := b }
  else if field_id = 2 then { s with OUT_szUserDefVal2 := b }
  else if field_id = 3 then { s with OUT_szUserDefVal3 := b }
  else if field_id = 4 then { s with OUT_szUserDefVal4 := b }
  else if field_id = 5 then { s with OUT_szUserDefVal5 := b }
  else { s with OUT_szUserDefVal6 := b }

def writeUserEnabled (field_id : Int) (e : Bool) (s : PluginInterfaceStructure) :
    PluginInterfaceStructure :=
  if field_id = 1 then { s with OUT_bUserDef1 := e }
  else if field_id = 2 then { s with OUT_bUserDef2 := e }
  else if field_id = 3 then { s with OUT_bUserDef3 := e }
  else if field_id = 4 then { s with OUT_bUserDef4 := e }
  else if field_id = 5 then { s with OUT_bUserDef5 := e }
  else { s with OUT_bUserDef6 := e }

/-- The current label bytes of a user slot (the ctypes memory the label
`setattr` writes into). -/
def userLabelBytes (field_id : Int) (s : PluginInterfaceStructure) : List Nat :=
  if field_id = 1 then s.OUT_szUserDef1
  else if field_id = 2 then s.OUT_szUserDef2
  else if field_id = 3 then s.OUT_szUserDef3
  else if field_id = 4 then s.OUT_szUserDef4
  else if field_id = 5 then s.OUT_szUserDef5
  else s.OUT_szUserDef6

/-- The current value bytes of a user slot. -/
def userValueBytes (field_id : Int) (s : PluginInterfaceStructure) : List Nat :=
  if field_id = 1 then s.OUT_szUserDefVal1
  else if field_id = 2 then s.OUT_szUserDefVal2
  else if field_id = 3 then s.OUT_szUserDefVal3
  else if field_id = 4 then s.OUT_szUserDefVal4
  else if field_id = 5 then s.OUT_szUserDefVal5
  else s.OUT_szUserDefVal6

/-- `set_user_field(field_id, label, value, enabled)` from
`core/interface.py`: validates only the id range; then, sequentially,
`setattr` the label (a ctypes store that raises `ValueError` past the
array size, after which nothing further runs), the value, the enabled
flag, and — for ids 1 and 2 only — the matching new-value flag.  The
source performs no length validation on `label` or `value`. -/
def set_user_field (s : PluginInterfaceStructure) (field_id : Int)
    (label value : String) (enabled : Bool) : PySetResult :=
  if ¬(1 ≤ field_id ∧ field_id ≤ 6) then
    ⟨s, some (.validationError "Field ID must be between 1 and 6")⟩
  else
    match cStore (userLabelBytes field_id s) (pyEncode label) PLUGIN_MAXDISPLAYTEXT with
    | none => ⟨s, some (.valueError "byte string too long")⟩
    | some lb =>
      let s1 := writeUserLabel field_id lb s
      match cStore (userValueBytes field_id s1) (pyEncode value) PLUGIN_MAXDISPLAYTEXT with
      | none => ⟨s1, some (.valueError "byte string too long")⟩
      | some vb =>
        let s2 := writeUserValue field_id vb s1
        let s3 := writeUserEnabled field_id enabled s2
        let s4 :=
          if field_id = 1 then { s3 with OUT_bNewUserDefVal1 := true }
          else if field_id = 2 then { s3 with OUT_bNewUserDefVal2 := true }
          else s3
        ⟨s4, none⟩

/-- `set_error(message, severity, long_message)` from
`core/interface.py`: `error_message` setter, `error_severity` setter,
`error_count += 1`, then — only when `long_message` is truthy — the
`error_long` setter.  Any raise aborts the remaining steps, leaving the
earlier mutations in place. -/
def set_error (s : PluginInterfaceStructure) (message : String)
    (severity : ErrorSeverity) (long_message : Option String) : PySetResult :=
  match error_message_setter s message with
  | ⟨s1, some e⟩ => ⟨s1, some e⟩
  | ⟨s1, none⟩ =>
    let s2 := error_severity_setter s1 severity
    match error_count_setter s2 (s2.OUT_iErrorCount + 1) with
    | ⟨s3, some e⟩ => ⟨s3, some e⟩
    | ⟨s3, none⟩ =>
      match long_message with
      | none => ⟨s3, none⟩
      | some lm => if lm = "" then ⟨s3, none⟩ else error_long_setter s3 lm

/-! ## List containment helper (used to state "message contains …") -/

def listStartsWith : List Nat → List Nat → Bool
  | _, [] => true
  | [], _ :: _ => false
  | a :: l, b :: p => a == b && listStartsWith l p

/-- `pat` occurs as a contiguous run inside `l` (Python `pat in l`). -/
def listHasRun (l pat : List Nat) : Bool :=
  l.tails.any (fun t => listStartsWith t pat)

/-- Python `pat in s` on strings, stated over the byte encodings. -/
def strHasRun (s pat : String) : Bool := listHasRun (pyEncode s) (pyEncode pat)


/-! ## Lifecycle engine (`core/plugin.py`, class `BurnInPlugin`)

The engine is modelled with explicit state and an event log.  The two
host-owned inputs live where the code reads them: `IN_DutyCycle` is read
from the record; successive ctypes reads of `IN_TestRunning` consult a
host schedule `tr : Nat → Bool` indexed by a read counter, which models
the host flipping the flag asynchronously between reads.  The subclass
capability set (three phase callbacks, the cycle hooks) is a parameter;
`on_test_end` is not defined on the base class, so the model stands for
a concrete plugin that supplies a normally-returning implementation. -/

inductive Phase where
  | writeP
  | readP
  | verifyP
deriving DecidableEq, Repr

def phaseLabel : Phase → String
  | .writeP => "Write"
  | .readP => "Read"
  | .verifyP => "Verify"

/-- Outcome of one invocation of a subclass phase callback. -/
inductive PhaseRes where
  | ok
  | failed
  | raised (msg : String)
deriving DecidableEq, Repr

inductive Ev where
  | evStart
  | evStop
  | evTestEnd
  | evCycleStart (n : Nat)
  | evCycleEnd (n : Nat)
  | evError (msg : String)
  | evPhase (p : Phase)
  | evSleep (t : ℚ)
  | evDisconnect
deriving DecidableEq, Repr

structure EngineCfg where
  tr : Nat → Bool
  delay : ℚ
  phases : Nat → Phase → PhaseRes
  hookCycleStart : Nat → Option String
  hookCycleEnd : Nat → Option String

structure EngineState where
  record : PluginInterfaceStructure
  is_running : Bool
  current_cycle : Nat
  connected : Bool
  events : List Ev
  reads : Nat
deriving DecidableEq, Repr

def logEv (st : EngineState) (e : Ev) : EngineState :=
  { st with events := st.events ++ [e] }

/-- One ctypes read of `IN_TestRunning` (the `test_running` property). -/
def readTR (cfg : EngineCfg) (st : EngineState) : Bool × EngineState :=
  (cfg.tr st.reads, { st with reads := st.reads + 1 })

/-- The `except` branch of the phase loop in `_execute_test_phases`:
`set_error("Exception in {phase} phase: {e}", CRITICAL)`, `on_error`,
`return False`; a raise from `set_error` itself leaves the method. -/
def phaseExnHandler (p : Phase) (m : String) (st : EngineState) :
    Except String Bool × EngineState :=
  let msg := "Exception in " ++ phaseLabel p ++ " phase: " ++ m
  match set_error st.record msg .critical none with
  | ⟨r, some e⟩ => (.error (pyErrStr e), { st with record := r })
  | ⟨r, none⟩ => (.ok false, logEv { st with record := r } (.evError msg))

/-- One entry of the phase loop of `_execute_test_phases`, after the
running guard: call the phase callback inside `try`/`except`; on a
`False` result, `set_error("{phase} phase failed.", CRITICAL)`,
`on_error`, `return False` (still inside the `try`, so a raise there
lands in the `except` branch). -/
def runPhase (cfg : EngineCfg) (k : Nat) (p : Phase) (st : EngineState) :
    Except String Bool × EngineState :=
  let st := logEv st (.evPhase p)
  match cfg.phases k p with
  | .ok => (.ok true, st)
  | .failed =>
    let msg := phaseLabel p ++ " phase failed."
    match set_error st.record msg .critical none with
    | ⟨r, none⟩ => (.ok false, logEv { st with record := r } (.evError msg))
    | ⟨r, some e⟩ => phaseExnHandler p (pyErrStr e) { st with record := r }
  | .raised m => phaseExnHandler p m st

/-- The phase loop of `_execute_test_phases`: before each phase re-check
`self._is_running` and (short-circuit) `test_running`; abort with
`False` and no error when either is off. -/
def execPhasesGo (cfg : EngineCfg) (k : Nat) :
    List Phase → EngineState → Except String Bool × EngineState
  | [], st => (.ok true, st)
  | p :: rest, st =>
    if ¬st.is_running then (.ok false, st)
    else
      let (t, st) := readTR cfg st
      if ¬t then (.ok false, st)
      else
        match runPhase cfg k p st with
        | (.ok true, st) => execPhasesGo cfg k rest st
        | out => out

def execute_test_phases (cfg : EngineCfg) (k : Nat) (st : EngineState) :
    Except String Bool × EngineState :=
  execPhasesGo cfg k [.writeP, .readP, .verifyP] st

/-- `_handle_duty_cycle`: no sleep unless `duty_cycle < 100` and
`(100 - duty_cycle) * delay > 0`. -/
def handle_duty_cycle (cfg : EngineCfg) (st : EngineState) : EngineState :=
  let duty := st.record.IN_DutyCycle
  if duty < 100 then
    let t : ℚ := ((100 - duty : Int) : ℚ) * cfg.delay
    if 0 < t then logEv st (.evSleep t) else st
  else st

inductive LoopExit where
  | finished
  | exn (msg : String)
  | fuelOut
deriving DecidableEq, Repr

/-- The `while` loop of `_run_plugin_loop` (fuel-indexed; `k` counts
iterations and schedules the callback behaviors): condition
`self._is_running and self._interface.test_running` (short-circuit),
then read the cycle counter, `on_cycle_start`, the three phases,
`on_cycle_end`, `_handle_duty_cycle`.  A `False` from
`_execute_test_phases` breaks out of the loop; a raise anywhere
propagates. -/
def loopGo (cfg : EngineCfg) : Nat → Nat → EngineState → LoopExit × EngineState
  | 0, _, st => (.fuelOut, st)
  | fuel + 1, k, st =>
    if ¬st.is_running then (.finished, st)
    else
      let (t, st) := readTR cfg st
      if ¬t then (.finished, st)
      else
        let cc := st.record.OUT_iCycle
        let st := logEv { st with current_cycle := cc } (.evCycleStart cc)
        match cfg.hookCycleStart k with
        | some m => (.exn m, st)
        | none =>
          match execute_test_phases cfg k st with
          | (.error m, st) => (.exn m, st)
          | (.ok false, st) => (.finished, st)
          | (.ok true, st) =>
            let st := logEv st (.evCycleEnd cc)
            match cfg.hookCycleEnd k with
            | some m => (.exn m, st)
            | none => loopGo cfg fuel (k + 1) (handle_duty_cycle cfg st)

/-- `_run_plugin_loop`: the `while` loop, then `on_test_end` — the call
sits inside the `try`, after the loop, so it runs only when the loop
finishes without an exception; the `except` branch calls `on_error` and
re-raises. -/
def run_plugin_loop (cfg : EngineCfg) (fuel : Nat) (st : EngineState) :
    LoopExit × EngineState :=
  match loopGo cfg fuel 0 st with
  | (.finished, st) => (.finished, logEv st .evTestEnd)
  | (.exn m, st) => (.exn m, logEv st (.evError ("Error in plugin loop: " ++ m)))
  | (.fuelOut, st) => (.fuelOut, st)

/-- `stop()`: no-op unless running; flips the flag and calls `on_stop`. -/
def stopEngine (st : EngineState) : EngineState :=
  if ¬st.is_running then st
  else logEv { st with is_running := false } .evStop

/-- `PluginConnection.disconnect`: no-op when not connected; best-effort
`test_stopped = True` and `status_code = PLUGIN_CLEANUP` (neither setter
can raise), release the mapping, clear the state. -/
def disconnectConn (st : EngineState) : EngineState :=
  if ¬st.connected then st
  else
    let r := status_code_setter (test_stopped_setter st.record true) .plugin_cleanup
    logEv { st with record := r, connected := false } .evDisconnect

/-- `BurnInPlugin._cleanup`: best-effort `status_code = PLUGIN_CLEANUP`
and `test_stopped = True` (only when the interface is present), then
`stop()`, then `disconnect()`. -/
def cleanupEngine (st : EngineState) : EngineState :=
  let st :=
    if st.connected then
      { st with record := test_stopped_setter (status_code_setter st.record .plugin_cleanup) true }
    else st
  disconnectConn (stopEngine st)

/-- The `interface_version` property setter. -/
def interface_version_setter (s : PluginInterfaceStructure) (version : Int) : PySetResult :=
  if version < 0 then
    ⟨s, some (.validationError "Interface version must be a non-negative integer")⟩
  else ⟨{ s with OUT_Plugin_interface_version := wrap32 version }, none⟩

def pyBind (r : PySetResult) (f : PluginInterfaceStructure → PySetResult) : PySetResult :=
  match r with
  | ⟨s, some e⟩ => ⟨s, some e⟩
  | ⟨s, none⟩ => f s

/-- `PluginConnection._initialize_interface`: the Record-visible side of
a successful `connect` — version, default labels, initial status, the
two enabled user slots, `display_text_set = True`. -/
def initialize_interface (s : PluginInterfaceStructure) : PySetResult :=
  pyBind (interface_version_setter s 4) fun s =>
  pyBind (write_label_setter s "Write (MBytes):") fun s =>
  pyBind (read_label_setter s "Read (MBytes):") fun s =>
  pyBind (verify_label_setter s "Verify (MBytes):") fun s =>
  pyBind (status_setter s "Initializing") fun s =>
  let s := status_code_setter s .plugin_startup
  pyBind (set_user_field s 1 "Custom Field 1" "Ready" true) fun s =>
  pyBind (set_user_field s 2 "Custom Field 2" "Ready" true) fun s =>
  ⟨display_text_set_setter s true, none⟩

/-- `BurnInPlugin.run`: connect (modelled by `initialize_interface`, the
Record-visible part of `PluginConnection.connect`), set the window title
and interface version, flip the running flag, `on_start`, the main
loop; on any exception `on_error` then re-raise; `_cleanup` always runs
before control returns (`finally`). -/
def runEngine (cfg : EngineCfg) (pluginName : String) (fuel : Nat)
    (record0 : PluginInterfaceStructure) : LoopExit × EngineState :=
  let st0 : EngineState :=
    { record := record0, is_running := false, current_cycle := 0,
      connected := false, events := [], reads := 0 }
  match initialize_interface record0 with
  | ⟨r, some e⟩ =>
    let st := logEv { st0 with record := r }
      (.evError ("Plugin execution failed: " ++ pyErrStr e))
    (.exn (pyErrStr e), cleanupEngine st)
  | ⟨r, none⟩ =>
    let st := { st0 with record := r, connected := true }
    match window_title_setter st.record pluginName with
    | ⟨r, some e⟩ =>
      let st := logEv { st with record := r }
        (.evError ("Plugin execution failed: " ++ pyErrStr e))
      (.exn (pyErrStr e), cleanupEngine st)
    | ⟨r, none⟩ =>
      match interface_version_setter r 4 with
      | ⟨r, some e⟩ =>
        let st := logEv { st with record := r }
          (.evError ("Plugin execution failed: " ++ pyErrStr e))
        (.exn (pyErrStr e), cleanupEngine st)
      | ⟨r, none⟩ =>
        let st := logEv { st with record := r, is_running := true } .evStart
        match run_plugin_loop cfg fuel st with
        | (.finished, st) => (.finished, cleanupEngine st)
        | (.exn m, st) =>
          (.exn m, cleanupEngine (logEv st (.evError ("Plugin execution failed: " ++ m))))
        | (.fuelOut, st) => (.fuelOut, st)

/-! ## Text-field harness: the seven text setters/getters in one table -/

inductive TextField where
  | statusF
  | errorMsgF
  | errorLongF
  | windowTitleF
  | writeLabelF
  | readLabelF
  | verifyLabelF
deriving DecidableEq, Repr

def TextField.width : TextField → Nat
  | .statusF => PLUGIN_MAXDISPLAYTEXT
  | .errorMsgF => PLUGIN_MAXERRORTEXT
  | .errorLongF => PLUGIN_MAXERRORTEXTLONG
  | .windowTitleF => PLUGIN_MAXDISPLAYTEXT
  | .writeLabelF => PLUGIN_MAXDISPLAYTEXT
  | .readLabelF => PLUGIN_MAXDISPLAYTEXT
  | .verifyLabelF => PLUGIN_MAXDISPLAYTEXT

/-- Dispatch to the source setter of each text field. -/
def setTextField : TextField → PluginInterfaceStructure → String → PySetResult
  | .statusF => status_setter
  | .errorMsgF => error_message_setter
  | .errorLongF => error_long_setter
  | .windowTitleF => window_title_setter
  | .writeLabelF => write_label_setter
  | .readLabelF => read_label_setter
  | .verifyLabelF => verify_label_setter

/-- Dispatch to the source getter of each text field. -/
def getTextField : TextField → PluginInterfaceStructure → String
  | .statusF => status_getter
  | .errorMsgF => error_message_getter
  | .errorLongF => error_long_getter
  | .windowTitleF => window_title_getter
  | .writeLabelF => write_label_getter
  | .readLabelF => read_label_getter
  | .verifyLabelF => verify_label_getter

/-- The raw stored bytes of each text field. -/
def TextField.bytes : TextField → PluginInterfaceStructure → List Nat
  | .statusF => fun s => s.OUT_szStatus
  | .errorMsgF => fun s => s.OUT_szError
  | .errorLongF => fun s => s.OUT_szErrorLong
  | .windowTitleF => fun s => s.OUT_szWindowTitle
  | .writeLabelF => fun s => s.OUT_szWriteOps
  | .readLabelF => fun s => s.OUT_szReadOps
  | .verifyLabelF => fun s => s.OUT_szVerifyOps

/-! ## Round-trip lemmas for the read path -/

lemma pyEncode_length (s : String) : (pyEncode s).length = s.length := by
  unfold pyEncode
  rw [List.length_map]
  rfl

lemma takeWhile_nonzero_terminated (l rest : List Nat)
    (h : ∀ x ∈ l, x ≠ 0) :
    (l ++ 0 :: rest).takeWhile (fun c => !(c == 0)) = l := by
  induction l with
  | nil => simp [List.takeWhile_cons]
  | cons a t ih =>
    have ha : a ≠ 0 := h a (by simp)
    simp only [List.cons_append, List.takeWhile_cons]
    have : (a == 0) = false := by simpa using ha
    simp [this, ih (fun x hx => h x (by simp [hx]))]

lemma dropWhile_eq_self_of_none {α : Type} (p : α → Bool) (l : List α)
    (h : ∀ x ∈ l, p x = false) : l.dropWhile p = l := by
  cases l with
  | nil => rfl
  | cons a t => simp [List.dropWhile_cons, h a (by simp)]

/-- A NUL-free, ASCII payload followed by its NUL terminator reads back
verbatim, no matter what the tail bytes after the terminator hold. -/
lemma readCStr_terminated (inp : String) (rest : List Nat)
    (hv : ∀ c ∈ inp.data, c.toNat ≠ 0 ∧ c.toNat < 0x80) :
    readCStr (pyEncode inp ++ 0 :: rest) = inp := by
  unfold readCStr cValue
  rw [takeWhile_nonzero_terminated (pyEncode inp) rest
    (by
      intro x hx
      simp only [pyEncode, List.mem_map] at hx
      obtain ⟨c, hc, rfl⟩ := hx
      exact (hv c hc).1)]
  unfold pyDecode
  rw [List.filter_eq_self.mpr (by
    intro x hx
    simp only [pyEncode, List.mem_map] at hx
    obtain ⟨c, hc, rfl⟩ := hx
    simpa using (hv c hc).2)]
  unfold pyEncode
  rw [List.map_map]
  have hmap : inp.data.map (Char.ofNat ∘ Char.toNat) = inp.data := by
    apply List.map_congr_left ?_ |>.trans (List.map_id _)
    intro c _
    exact Char.ofNat_toNat c
  rw [hmap]
  unfold rstripNull
  rw [dropWhile_eq_self_of_none _ _ (by
    intro c hc
    rw [List.mem_reverse] at hc
    have : c.toNat ≠ 0 := (hv c hc).1
    simp only [beq_eq_false_iff_ne, ne_eq]
    intro hcc
    exact this (by simp [hcc]))]
  rw [List.reverse_reverse]

/-! ## Claims about the text fields (C1, C6) -/

/-- C1, counterexample: the claim says a set-then-get returns the
*sanitized* value (`%`, `\` and control bytes replaced with a space).
Setting the status to "a%b" (length 3, well under the width) reads back
"a%b", not the sanitized "a b": the setters of `core/interface.py`
never invoke the sanitizer. -/
theorem claim_C1_cex :
    (status_setter zeroRecord "a%b").err = none ∧
    status_getter (status_setter zeroRecord "a%b").state = "a%b" ∧
    pyDecode (cValue (sanitize_spec (pyEncode "a%b") PLUGIN_MAXDISPLAYTEXT)) = "a b" ∧
    ("a%b" : String) ≠ "a b" := by
  refine ⟨rfl, by decide, by decide, by decide⟩

/-- C1, amended: for every text field and every NUL-free ASCII input
shorter than the field's width, setting then reading back returns the
input *unsanitized* (control bytes, `%` and `\` all preserved).  The
store writes the payload followed by a single terminating NUL and
leaves the field's remaining tail bytes exactly as they were (ctypes
`s_set` does not zero-fill); the field's byte size is unchanged, so a
width-sized field stays width-sized. -/
theorem claim_C1_amended (f : TextField) (s : PluginInterfaceStructure) (inp : String)
    (hlen : inp.length < f.width)
    (hv : ∀ c ∈ inp.data, c.toNat ≠ 0 ∧ c.toNat < 0x80) :
    (setTextField f s inp).err = none ∧
    getTextField f (setTextField f s inp).state = inp ∧
    TextField.bytes f (setTextField f s inp).state =
      pyEncode inp ++ 0 :: (TextField.bytes f s).drop ((pyEncode inp).length + 1) ∧
    ((TextField.bytes f s).length = f.width →
      (TextField.bytes f (setTextField f s inp).state).length = f.width) := by
  cases f <;>
  · simp only [TextField.width, PLUGIN_MAXDISPLAYTEXT, PLUGIN_MAXERRORTEXT,
      PLUGIN_MAXERRORTEXTLONG] at hlen
    simp only [setTextField, getTextField, TextField.bytes, TextField.width, status_setter,
      error_message_setter, error_long_setter, window_title_setter,
      write_label_setter, read_label_setter, verify_label_setter, validate_label,
      status_getter, error_message_getter, error_long_getter, window_title_getter,
      write_label_getter, read_label_getter, verify_label_getter,
      PLUGIN_MAXDISPLAYTEXT, PLUGIN_MAXERRORTEXT, PLUGIN_MAXERRORTEXTLONG]
    rw [if_neg (by omega)]
    unfold cStore
    rw [if_pos (by rw [pyEncode_length]; omega)]
    rw [if_pos (by rw [pyEncode_length]; omega)]
    dsimp only
    refine ⟨rfl, ?_, rfl, ?_⟩
    · exact readCStr_terminated inp _ hv
    · intro hw
      simp only [List.length_append, List.length_cons, List.length_drop, pyEncode_length]
      omega

/-- C1, witness for the amended theorem at a concrete input: the status
field on a fresh record with input "a%b". -/
theorem claim_C1_witness :
    ("a%b" : String).length < TextField.statusF.width ∧
    (∀ c ∈ ("a%b" : String).data, c.toNat ≠ 0 ∧ c.toNat < 0x80) ∧
    ((setTextField .statusF zeroRecord "a%b").err = none ∧
      getTextField .statusF (setTextField .statusF zeroRecord "a%b").state = "a%b" ∧
      TextField.bytes .statusF (setTextField .statusF zeroRecord "a%b").state =
        pyEncode "a%b" ++
          0 :: (TextField.bytes .statusF zeroRecord).drop ((pyEncode "a%b").length + 1) ∧
      ((TextField.bytes .statusF zeroRecord).length = TextField.statusF.width →
        (TextField.bytes .statusF (setTextField .statusF zeroRecord "a%b").state).length =
          TextField.statusF.width)) :=
  ⟨by decide, by decide,
    claim_C1_amended .statusF zeroRecord "a%b" (by decide) (by decide)⟩

/-- C6: every text setter rejects an input whose length reaches the
field's width with a `ValidationError`, leaving the whole record — in
particular the field's bytes — unchanged. -/
theorem claim_C6_overlength_rejected (f : TextField) (s : PluginInterfaceStructure)
    (inp : String) (hlen : f.width ≤ inp.length) :
    (setTextField f s inp).state = s ∧
    ∃ m, (setTextField f s inp).err = some (.validationError m) := by
  cases f <;>
  · simp only [TextField.width, PLUGIN_MAXDISPLAYTEXT, PLUGIN_MAXERRORTEXT,
      PLUGIN_MAXERRORTEXTLONG] at hlen
    simp only [setTextField, status_setter, error_message_setter, error_long_setter,
      window_title_setter, write_label_setter, read_label_setter, verify_label_setter,
      validate_label, PLUGIN_MAXDISPLAYTEXT, PLUGIN_MAXERRORTEXT, PLUGIN_MAXERRORTEXTLONG]
    rw [if_pos (by omega)]
    exact ⟨rfl, _, rfl⟩

/-- C6, witness: the status setter at width-sized input on a fresh record. -/
theorem claim_C6_witness :
    TextField.statusF.width ≤ ("aaaaaaaaaaaaaaaaaaaa" : String).length ∧
    ((setTextField .statusF zeroRecord "aaaaaaaaaaaaaaaaaaaa").state = zeroRecord ∧
      ∃ m, (setTextField .statusF zeroRecord "aaaaaaaaaaaaaaaaaaaa").err =
        some (.validationError m)) :=
  ⟨by decide, claim_C6_overlength_rejected .statusF zeroRecord _ (by decide)⟩

/-! ## Claims about the sanitizer and the user-defined slots (C2, C3) -/

/-- C2: evaluation of `strn_clean_cpy` at the claim's inputs.  Control
bytes below `0x20` are replaced with a space as claimed, but a `%`
(0x25) and a backslash (0x5C) pass through unchanged — the source
compares the `int` byte with one-byte `bytes` objects, a test that is
always false — so the output differs from the specified sanitization. -/
theorem claim_C2_eval :
    strn_clean_cpy (pyEncode "a%b") 20 = pyEncode "a%b" ++ List.replicate 17 0 ∧
    strn_clean_cpy [97, 0x5C, 98] 20 = [97, 0x5C, 98] ++ List.replicate 17 0 ∧
    strn_clean_cpy [97, 9, 98] 20 = [97, 0x20, 98] ++ List.replicate 17 0 ∧
    sanitize_spec (pyEncode "a%b") 20 = pyEncode "a b" ++ List.replicate 17 0 ∧
    strn_clean_cpy (pyEncode "a%b") 20 ≠ sanitize_spec (pyEncode "a%b") 20 := by
  decide

/-- C3: `set_user_field` performs no length validation on label or
value.  A 20-character label (length equal to the short-text width) is
accepted outright with no error; and when only the value is over-long
(21 bytes, past what the ctypes array can hold), the failure is a ctypes
`ValueError` — not a `ValidationError` — raised only after the label was
already written into the record (a partial write). -/
theorem claim_C3_eval :
    ("xxxxxxxxxxxxxxxxxxxx" : String).length = PLUGIN_MAXDISPLAYTEXT ∧
    (set_user_field zeroRecord 1 "xxxxxxxxxxxxxxxxxxxx" "y" true).err = none ∧
    (set_user_field zeroRecord 1 "ok" "yyyyyyyyyyyyyyyyyyyyy" true).err =
      some (.valueError "byte string too long") ∧
    (set_user_field zeroRecord 1 "ok" "yyyyyyyyyyyyyyyyyyyyy" true).state.OUT_szUserDef1 ≠
      zeroRecord.OUT_szUserDef1 := by
  decide

/-! ## Claim C8: user-field notification flags and id validation -/

/-- C8: a successful `set_user_field` with id 1 (resp. 2) leaves the
matching new-value flag true; with id in 3..6 the call succeeds whenever
label and value fit the ctypes arrays and touches none of the four
notification flags; any id outside 1..6 fails with `ValidationError`
with the record unchanged. -/
theorem claim_C8_user_field (s : PluginInterfaceStructure)
    (label value : String) (enabled : Bool) :
    ((set_user_field s 1 label value enabled).err = none →
      (set_user_field s 1 label value enabled).state.OUT_bNewUserDefVal1 = true) ∧
    ((set_user_field s 2 label value enabled).err = none →
      (set_user_field s 2 label value enabled).state.OUT_bNewUserDefVal2 = true) ∧
    (∀ fid : Int, 3 ≤ fid → fid ≤ 6 →
      (label.length ≤ PLUGIN_MAXDISPLAYTEXT → value.length ≤ PLUGIN_MAXDISPLAYTEXT →
        (set_user_field s fid label value enabled).err = none) ∧
      ((set_user_field s fid label value enabled).state.OUT_bNewError = s.OUT_bNewError ∧
        (set_user_field s fid label value enabled).state.OUT_bNewStatus = s.OUT_bNewStatus ∧
        (set_user_field s fid label value enabled).state.OUT_bNewUserDefVal1 =
          s.OUT_bNewUserDefVal1 ∧
        (set_user_field s fid label value enabled).state.OUT_bNewUserDefVal2 =
          s.OUT_bNewUserDefVal2)) ∧
    (∀ fid : Int, ¬(1 ≤ fid ∧ fid ≤ 6) →
      set_user_field s fid label value enabled =
        ⟨s, some (.validationError "Field ID must be between 1 and 6")⟩) := by
  refine ⟨?_, ?_, ?_, ?_⟩
  · intro h
    unfold set_user_field at h ⊢
    rw [if_neg (by omega)] at h ⊢
    dsimp only at h ⊢
    split at h
    · simp at h
    · next lb heq =>
      split at h
      · simp at h
      · next vb heq2 =>
        simp [writeUserLabel, writeUserValue, writeUserEnabled]
  · intro h
    unfold set_user_field at h ⊢
    rw [if_neg (by omega)] at h ⊢
    dsimp only at h ⊢
    split at h
    · simp at h
    · next lb heq =>
      split at h
      · simp at h
      · next vb heq2 =>
        simp [writeUserLabel, writeUserValue, writeUserEnabled]
  · intro fid h3 h6
    constructor
    · intro hlab hval
      unfold set_user_field
      rw [if_neg (by omega)]
      dsimp only
      split
      · next heq =>
        exfalso
        unfold cStore at heq
        rw [if_pos (by rw [pyEncode_length]; omega)] at heq
        simp at heq
      · next lb heq =>
        split
        · next heq2 =>
          exfalso
          unfold cStore at heq2
          rw [if_pos (by rw [pyEncode_length]; omega)] at heq2
          simp at heq2
        · next vb heq2 => rfl
    · unfold set_user_field
      rw [if_neg (by omega)]
      dsimp only
      split
      · exact ⟨rfl, rfl, rfl, rfl⟩
      · next lb heq =>
        split
        · unfold writeUserLabel
          split_ifs <;> exact ⟨rfl, rfl, rfl, rfl⟩
        · next vb heq2 =>
          dsimp only
          rw [if_neg (show ¬fid = 1 by omega), if_neg (show ¬fid = 2 by omega)]
          unfold writeUserEnabled writeUserValue writeUserLabel
          split_ifs <;> exact ⟨rfl, rfl, rfl, rfl⟩
  · intro fid hid
    unfold set_user_field
    rw [if_pos hid]

/-- C8, witness: a successful call on slot 1 sets the flag; a successful
call on slot 3 touches no notification flag; id 7 is rejected with the
record unchanged. -/
theorem claim_C8_witness :
    ((set_user_field zeroRecord 1 "a" "b" true).err = none ∧
      (set_user_field zeroRecord 1 "a" "b" true).state.OUT_bNewUserDefVal1 = true) ∧
    ((set_user_field zeroRecord 3 "a" "b" true).err = none ∧
      (set_user_field zeroRecord 3 "a" "b" true).state.OUT_bNewUserDefVal1 =
        zeroRecord.OUT_bNewUserDefVal1) ∧
    set_user_field zeroRecord 7 "a" "b" true =
      ⟨zeroRecord, some (.validationError "Field ID must be between 1 and 6")⟩ :=
  ⟨⟨by decide, (claim_C8_user_field zeroRecord "a" "b" true).1 (by decide)⟩,
    ⟨((claim_C8_user_field zeroRecord "a" "b" true).2.2.1 3 (by omega) (by omega)).1
        (by decide) (by decide),
      ((claim_C8_user_field zeroRecord "a" "b" true).2.2.1 3 (by omega) (by omega)).2.2.2.1⟩,
    (claim_C8_user_field zeroRecord "a" "b" true).2.2.2 7 (by omega)⟩

/-! ## Claim C9: reset_flags frame property -/

/-- C9: `reset_flags` clears exactly the four notification flags
`new_error`, `new_status`, `new_user_1`, `new_user_2`, and leaves
`display_text_set`, `test_stopped` and every other field of the record
unchanged. -/
theorem claim_C9_reset_flags (s : PluginInterfaceStructure) :
    (reset_flags s).OUT_bNewError = false ∧
    (reset_flags s).OUT_bNewStatus = false ∧
    (reset_flags s).OUT_bNewUserDefVal1 = false ∧
    (reset_flags s).OUT_bNewUserDefVal2 = false ∧
    (reset_flags s).OUT_bDisplayTextSet = s.OUT_bDisplayTextSet ∧
    (reset_flags s).OUT_bTestStopped = s.OUT_bTestStopped ∧
    (reset_flags s).IN_TestRunning = s.IN_TestRunning ∧
    (reset_flags s).IN_DutyCycle = s.IN_DutyCycle ∧
    (reset_flags s).OUT_Plugin_interface_version = s.OUT_Plugin_interface_version ∧
    (reset_flags s).OUT_szWindowTitle = s.OUT_szWindowTitle ∧
    (reset_flags s).OUT_iCycle = s.OUT_iCycle ∧
    (reset_flags s).OUT_iStatus = s.OUT_iStatus ∧
    (reset_flags s).OUT_szStatus = s.OUT_szStatus ∧
    (reset_flags s).OUT_iErrorCount = s.OUT_iErrorCount ∧
    (reset_flags s).OUT_szError = s.OUT_szError ∧
    (reset_flags s).OUT_iErrorSeverity = s.OUT_iErrorSeverity ∧
    (reset_flags s).OUT_szWriteOps = s.OUT_szWriteOps ∧
    (reset_flags s).OUT_i64WriteOps = s.OUT_i64WriteOps ∧
    (reset_flags s).OUT_szReadOps = s.OUT_szReadOps ∧
    (reset_flags s).OUT_i64ReadOps = s.OUT_i64ReadOps ∧
    (reset_flags s).OUT_szVerifyOps = s.OUT_szVerifyOps ∧
    (reset_flags s).OUT_i64VerifyOps = s.OUT_i64VerifyOps ∧
    (reset_flags s).OUT_bUserDef1 = s.OUT_bUserDef1 ∧
    (reset_flags s).OUT_szUserDef1 = s.OUT_szUserDef1 ∧
    (reset_flags s).OUT_szUserDefVal1 = s.OUT_szUserDefVal1 ∧
    (reset_flags s).OUT_bUserDef2 = s.OUT_bUserDef2 ∧
    (reset_flags s).OUT_szUserDef2 = s.OUT_szUserDef2 ∧
    (reset_flags s).OUT_szUserDefVal2 = s.OUT_szUserDefVal2 ∧
    (reset_flags s).OUT_bUserDef3 = s.OUT_bUserDef3 ∧
    (reset_flags s).OUT_szUserDef3 = s.OUT_szUserDef3 ∧
    (reset_flags s).OUT_szUserDefVal3 = s.OUT_szUserDefVal3 ∧
    (reset_flags s).OUT_bUserDef4 = s.OUT_bUserDef4 ∧
    (reset_flags s).OUT_szUserDef4 = s.OUT_szUserDef4 ∧
    (reset_flags s).OUT_szUserDefVal4 = s.OUT_szUserDefVal4 ∧
    (reset_flags s).OUT_bUserDef5 = s.OUT_bUserDef5 ∧
    (reset_flags s).OUT_szUserDef5 = s.OUT_szUserDef5 ∧
    (reset_flags s).OUT_szUserDefVal5 = s.OUT_szUserDefVal5 ∧
    (reset_flags s).OUT_bUserDef6 = s.OUT_bUserDef6 ∧
    (reset_flags s).OUT_szUserDef6 = s.OUT_szUserDef6 ∧
    (reset_flags s).OUT_szUserDefVal6 = s.OUT_szUserDefVal6 ∧
    (reset_flags s).OUT_szErrorLong = s.OUT_szErrorLong := by
  and_intros <;> rfl

/-! ## Claim C10: the enum getters are not total -/

lemma statusCode_ofInt_none (v : Int) (h : v < 0 ∨ 10 < v) :
    StatusCode.ofInt? v = none := by
  unfold StatusCode.ofInt?
  repeat rw [if_neg (by omega)]

lemma errorSeverity_ofInt_none (v : Int) (h : v < 0 ∨ 5 < v) :
    ErrorSeverity.ofInt? v = none := by
  unfold ErrorSeverity.ofInt?
  repeat rw [if_neg (by omega)]

/-- C10: the `status_code` getter raises `ValueError` whenever the raw
status integer is outside 0..10, the `error_severity` getter whenever
the raw severity integer is outside 0..5; in particular records exist —
reachable because the host process can write arbitrary bytes into the
shared block — on which the getters fail, so they are not total. -/
theorem claim_C10_getters_can_fail (s : PluginInterfaceStructure) (v : Int) :
    (v < 0 ∨ 10 < v →
      status_code_getter { s with OUT_iStatus := v } =
        .error (.valueError "is not a valid StatusCode")) ∧
    (v < 0 ∨ 5 < v →
      error_severity_getter { s with OUT_iErrorSeverity := v } =
        .error (.valueError "is not a valid ErrorSeverity")) ∧
    (∃ s' e, status_code_getter s' = .error e) ∧
    (∃ s' e, error_severity_getter s' = .error e) := by
  refine ⟨?_, ?_,
    ⟨{ zeroRecord with OUT_iStatus := 11 }, .valueError "is not a valid StatusCode", rfl⟩,
    ⟨{ zeroRecord with OUT_iErrorSeverity := 6 }, .valueError "is not a valid ErrorSeverity",
      rfl⟩⟩
  · intro h
    unfold status_code_getter
    dsimp only
    rw [statusCode_ofInt_none v h]
  · intro h
    unfold error_severity_getter
    dsimp only
    rw [errorSeverity_ofInt_none v h]

/-- C10, witness: both getters fail at raw value 11 on a fresh record. -/
theorem claim_C10_witness :
    ((11 : Int) < 0 ∨ 10 < (11 : Int)) ∧
    ((11 : Int) < 0 ∨ 5 < (11 : Int)) ∧
    status_code_getter { zeroRecord with OUT_iStatus := 11 } =
      .error (.valueError "is not a valid StatusCode") ∧
    error_severity_getter { zeroRecord with OUT_iErrorSeverity := 11 } =
      .error (.valueError "is not a valid ErrorSeverity") :=
  ⟨by omega, by omega,
    (claim_C10_getters_can_fail zeroRecord 11).1 (by omega),
    (claim_C10_getters_can_fail zeroRecord 11).2.1 (by omega)⟩

/-! ## Engine scenarios (C4, C5, C7) -/

/-- Host behavior for the C4 scenario: `test_running` reads true for the
first four ctypes reads (the loop condition and the three phase guards
of the first cycle) and false from the fifth read on — the host flips
the flag to 0 after the first cycle. -/
def cfgOneCycle : EngineCfg where
  tr := fun i => decide (i < 4)
  delay := 1 / 50
  phases := fun _ _ => .ok
  hookCycleStart := fun _ => none
  hookCycleEnd := fun _ => none

/-- A record as the host arms it: `test_running = 1`, `duty_cycle = 100`,
all plugin outputs still zero. -/
def recArmed : PluginInterfaceStructure :=
  { zeroRecord with IN_TestRunning := 1, IN_DutyCycle := 100 }

/-- Host keeps `test_running` true; the write-phase callback reports
failure on every cycle, the other callbacks succeed. -/
def cfgWriteFails : EngineCfg where
  tr := fun _ => true
  delay := 1 / 50
  phases := fun _ p => if p = .writeP then .failed else .ok
  hookCycleStart := fun _ => none
  hookCycleEnd := fun _ => none

/-- Host keeps `test_running` true; the `on_cycle_start` hook raises. -/
def cfgHookRaises : EngineCfg where
  tr := fun _ => true
  delay := 1 / 50
  phases := fun _ _ => .ok
  hookCycleStart := fun _ => some "boom"
  hookCycleEnd := fun _ => none

/-- C4, counterexample: in the claimed scenario (`test_running = 1`,
`duty_cycle = 100`, all phases succeed, host flips the flag after one
cycle) the record's cycle counter does NOT increase by 1 — it is left at
its starting value 0, because `_run_plugin_loop` only reads
`OUT_iCycle` and never calls `increment_cycle`. -/
theorem claim_C4_cex :
    recArmed.OUT_iCycle = 0 ∧
    (runEngine cfgOneCycle "TestPlugin" 5 recArmed).2.record.OUT_iCycle = 0 ∧
    (runEngine cfgOneCycle "TestPlugin" 5 recArmed).2.record.OUT_iCycle ≠ 1 := by
  refine ⟨rfl, rfl, by decide⟩

/-- C4, amended: in that scenario exactly one cycle executes, with zero
pacing delay (no sleep event, since `duty_cycle = 100`); after the host
flips `test_running` to 0 the loop exits within one iteration, running
`on_test_end` once and then cleanup; the record's cycle counter is
unchanged at 0 (incrementing it is left to the concrete plugin via
`increment_cycle`). -/
theorem claim_C4_amended :
    (runEngine cfgOneCycle "TestPlugin" 5 recArmed).1 = .finished ∧
    (runEngine cfgOneCycle "TestPlugin" 5 recArmed).2.events =
      [.evStart, .evCycleStart 0, .evPhase .writeP, .evPhase .readP, .evPhase .verifyP,
        .evCycleEnd 0, .evTestEnd, .evStop, .evDisconnect] ∧
    (runEngine cfgOneCycle "TestPlugin" 5 recArmed).2.record.OUT_iCycle = 0 := by
  refine ⟨rfl, rfl, rfl⟩

/-- C7: starting from a record with error count 0, when the write-phase
callback returns false the record afterwards holds `error_count = 1`,
severity Critical, an error message containing "Write" and "failed" with
the new-error flag raised; the event log shows that neither the read-
nor the verify-phase callback ran and that the run ended after that
single cycle (`on_test_end`, `on_stop`, disconnect follow immediately,
no second `evCycleStart`). -/
theorem claim_C7_write_failure :
    recArmed.OUT_iErrorCount = 0 ∧
    (runEngine cfgWriteFails "TestPlugin" 5 recArmed).2.record.OUT_iErrorCount = 1 ∧
    error_severity_getter (runEngine cfgWriteFails "TestPlugin" 5 recArmed).2.record =
      .ok .critical ∧
    error_message_getter (runEngine cfgWriteFails "TestPlugin" 5 recArmed).2.record =
      "Write phase failed." ∧
    strHasRun "Write phase failed." "Write" = true ∧
    strHasRun "Write phase failed." "failed" = true ∧
    (runEngine cfgWriteFails "TestPlugin" 5 recArmed).2.record.OUT_bNewError = true ∧
    (runEngine cfgWriteFails "TestPlugin" 5 recArmed).2.events =
      [.evStart, .evCycleStart 0, .evPhase .writeP, .evError "Write phase failed.",
        .evTestEnd, .evStop, .evDisconnect] ∧
    (runEngine cfgWriteFails "TestPlugin" 5 recArmed).1 = .finished := by
  refine ⟨rfl, rfl, rfl, by decide, by decide, by decide, rfl, rfl, rfl⟩

/-- C5, counterexample: when a hook raises an uncaught exception out of
the loop body (here `on_cycle_start`), `on_test_end` is NOT called — the
call sits inside the `try` after the `while`, so the exception skips
it — although the claim says it fires on every loop exit.  Cleanup still
runs and the exception is re-raised after it. -/
theorem claim_C5_cex :
    (runEngine cfgHookRaises "TestPlugin" 5 recArmed).1 = .exn "boom" ∧
    (runEngine cfgHookRaises "TestPlugin" 5 recArmed).2.events =
      [.evStart, .evCycleStart 0, .evError "Error in plugin loop: boom",
        .evError "Plugin execution failed: boom", .evStop, .evDisconnect] ∧
    Ev.evTestEnd ∉ (runEngine cfgHookRaises "TestPlugin" 5 recArmed).2.events ∧
    (runEngine cfgHookRaises "TestPlugin" 5 recArmed).2.record.OUT_bTestStopped = true := by
  refine ⟨rfl, rfl, by decide, rfl⟩

/-! ## Loop-safety invariant for the general C5 statement -/

/-- Events that only the post-loop wrapper and cleanup may log. -/
def lifecycleEv : Ev → Bool
  | .evTestEnd => true
  | .evStop => true
  | .evDisconnect => true
  | _ => false

/-- The loop body only appends non-lifecycle events to the log and never
changes the running or connected flags. -/
def LoopSafe (st st' : EngineState) : Prop :=
  (∃ l, st'.events = st.events ++ l ∧ ∀ e ∈ l, lifecycleEv e = false) ∧
  st'.is_running = st.is_running ∧ st'.connected = st.connected

lemma loopSafe_refl (st : EngineState) : LoopSafe st st :=
  ⟨⟨[], by simp, by simp⟩, rfl, rfl⟩

lemma loopSafe_trans {a b c : EngineState} (h1 : LoopSafe a b) (h2 : LoopSafe b c) :
    LoopSafe a c := by
  obtain ⟨⟨l1, he1, hl1⟩, hr1, hc1⟩ := h1
  obtain ⟨⟨l2, he2, hl2⟩, hr2, hc2⟩ := h2
  refine ⟨⟨l1 ++ l2, by rw [he2, he1, List.append_assoc], ?_⟩, hr2.trans hr1, hc2.trans hc1⟩
  intro e he
  rcases List.mem_append.mp he with h | h
  · exact hl1 e h
  · exact hl2 e h

lemma loopSafe_log (st : EngineState) (e : Ev) (h : lifecycleEv e = false) :
    LoopSafe st (logEv st e) :=
  ⟨⟨[e], rfl, by simpa using h⟩, rfl, rfl⟩

lemma phaseExnHandler_safe (p : Phase) (m : String) (st : EngineState) :
    LoopSafe st (phaseExnHandler p m st).2 := by
  unfold phaseExnHandler
  dsimp only
  split
  · exact ⟨⟨[], by simp, by simp⟩, rfl, rfl⟩
  · exact ⟨⟨[.evError ("Exception in " ++ phaseLabel p ++ " phase: " ++ m)],
      by simp [logEv], by simp [lifecycleEv]⟩, rfl, rfl⟩

lemma runPhase_safe (cfg : EngineCfg) (k : Nat) (p : Phase) (st : EngineState) :
    LoopSafe st (runPhase cfg k p st).2 := by
  unfold runPhase
  dsimp only
  split
  · exact ⟨⟨[.evPhase p], by simp [logEv], by simp [lifecycleEv]⟩, rfl, rfl⟩
  · split
    · exact ⟨⟨[.evPhase p, .evError (phaseLabel p ++ " phase failed.")],
        by simp [logEv], by simp [lifecycleEv]⟩, rfl, rfl⟩
    · refine loopSafe_trans (loopSafe_trans
        (⟨⟨[.evPhase p], by simp [logEv], by simp [lifecycleEv]⟩, rfl, rfl⟩ :
          LoopSafe st (logEv st (.evPhase p)))
        (⟨⟨[], by simp, by simp⟩, rfl, rfl⟩ :
          LoopSafe (logEv st (.evPhase p)) _)) (phaseExnHandler_safe _ _ _)
  · refine loopSafe_trans
      (⟨⟨[.evPhase p], by simp [logEv], by simp [lifecycleEv]⟩, rfl, rfl⟩ :
        LoopSafe st (logEv st (.evPhase p)))
      (phaseExnHandler_safe _ _ _)

lemma execPhasesGo_safe (cfg : EngineCfg) (k : Nat) :
    ∀ (ps : List Phase) (st : EngineState), LoopSafe st (execPhasesGo cfg k ps st).2 := by
  intro ps
  induction ps with
  | nil => intro st; exact loopSafe_refl st
  | cons p rest ih =>
    intro st
    unfold execPhasesGo
    dsimp only [readTR]
    split
    · exact loopSafe_refl st
    · split
      · exact ⟨⟨[], by simp, by simp⟩, rfl, rfl⟩
      · have hsafe : LoopSafe st { st with reads := st.reads + 1 } :=
          ⟨⟨[], by simp, by simp⟩, rfl, rfl⟩
        split
        · next st2 heq =>
            refine loopSafe_trans hsafe (loopSafe_trans ?_ (ih st2))
            have := runPhase_safe cfg k p { st with reads := st.reads + 1 }
            rw [heq] at this
            exact this
        · next out hne =>
            refine loopSafe_trans hsafe ?_
            exact runPhase_safe cfg k p { st with reads := st.reads + 1 }

lemma handle_duty_cycle_safe (cfg : EngineCfg) (st : EngineState) :
    LoopSafe st (handle_duty_cycle cfg st) := by
  unfold handle_duty_cycle
  dsimp only
  split
  · split
    · exact loopSafe_log _ _ rfl
    · exact loopSafe_refl st
  · exact loopSafe_refl st

lemma loopGo_safe (cfg : EngineCfg) :
    ∀ (fuel k : Nat) (st : EngineState), LoopSafe st (loopGo cfg fuel k st).2 := by
  intro fuel
  induction fuel with
  | zero => intro k st; exact loopSafe_refl st
  | succ n ih =>
    intro k st
    unfold loopGo
    dsimp only [readTR]
    split
    · exact loopSafe_refl st
    · split
      · exact ⟨⟨[], by simp, by simp⟩, rfl, rfl⟩
      · have hread : LoopSafe st { st with reads := st.reads + 1 } :=
          ⟨⟨[], by simp, by simp⟩, rfl, rfl⟩
        have hcs : LoopSafe st
            (logEv { st with reads := st.reads + 1, current_cycle := st.record.OUT_iCycle }
              (.evCycleStart st.record.OUT_iCycle)) :=
          loopSafe_trans (loopSafe_trans hread ⟨⟨[], by simp, by simp⟩, rfl, rfl⟩)
            (loopSafe_log _ _ rfl)
        split
        · exact hcs
        · split
          · next m st2 heq =>
              refine loopSafe_trans hcs ?_
              have h2 := execPhasesGo_safe cfg k [.writeP, .readP, .verifyP]
                (logEv { st with reads := st.reads + 1, current_cycle := st.record.OUT_iCycle }
                  (.evCycleStart st.record.OUT_iCycle))
              unfold execute_test_phases at heq
              rw [heq] at h2
              exact h2
          · next st2 heq =>
              refine loopSafe_trans hcs ?_
              have h2 := execPhasesGo_safe cfg k [.writeP, .readP, .verifyP]
                (logEv { st with reads := st.reads + 1, current_cycle := st.record.OUT_iCycle }
                  (.evCycleStart st.record.OUT_iCycle))
              unfold execute_test_phases at heq
              rw [heq] at h2
              exact h2
          · next st2 heq =>
              have hmid : LoopSafe st st2 := by
                refine loopSafe_trans hcs ?_
                have h2 := execPhasesGo_safe cfg k [.writeP, .readP, .verifyP]
                  (logEv { st with reads := st.reads + 1, current_cycle := st.record.OUT_iCycle }
                    (.evCycleStart st.record.OUT_iCycle))
                unfold execute_test_phases at heq
                rw [heq] at h2
                exact h2
              have hce : LoopSafe st (logEv st2 (.evCycleEnd st.record.OUT_iCycle)) :=
                loopSafe_trans hmid (loopSafe_log _ _ rfl)
              split
              · exact hce
              · exact loopSafe_trans hce
                  (loopSafe_trans (handle_duty_cycle_safe cfg _) (ih (k + 1) _))

/-- `_initialize_interface` succeeds on every record: every string it
writes is a fixed literal well under its width and the two user slots it
sets have valid ids. -/
lemma initialize_interface_ok (s : PluginInterfaceStructure) :
    (initialize_interface s).err = none := rfl

lemma window_title_setter_ok (s : PluginInterfaceStructure) (name : String)
    (h : name.length < PLUGIN_MAXDISPLAYTEXT) :
    (window_title_setter s name).err = none := by
  unfold window_title_setter validate_label
  rw [if_neg (by omega)]
  unfold cStore
  rw [if_pos (by rw [pyEncode_length]; omega)]

lemma interface_version_setter_4_ok (s : PluginInterfaceStructure) :
    (interface_version_setter s 4).err = none := rfl

/-- On a running, connected state, cleanup appends exactly the stop and
disconnect events and leaves the record stopped in Cleanup status. -/
lemma cleanupEngine_spec (st : EngineState) (hr : st.is_running = true)
    (hc : st.connected = true) :
    (cleanupEngine st).record.OUT_bTestStopped = true ∧
    (cleanupEngine st).record.OUT_iStatus = StatusCode.plugin_cleanup.toInt ∧
    (cleanupEngine st).events = st.events ++ [.evStop, .evDisconnect] := by
  unfold cleanupEngine stopEngine disconnectConn
  simp [hr, hc, logEv, test_stopped_setter, status_code_setter, StatusCode.toInt]

lemma loopSafe_count_testEnd {a b : EngineState} (h : LoopSafe a b) :
    b.events.count Ev.evTestEnd = a.events.count Ev.evTestEnd := by
  obtain ⟨⟨l, he, hl⟩, _, _⟩ := h
  rw [he, List.count_append]
  have hz : l.count Ev.evTestEnd = 0 := by
    refine List.count_eq_zero.mpr (fun hm => ?_)
    have := hl _ hm
    simp [lifecycleEv] at this
  omega

lemma getLast?_append_pair {α : Type} (l : List α) (a b : α) :
    (l ++ [a, b]).getLast? = some b := by
  rw [show l ++ [a, b] = (l ++ [a]) ++ [b] by simp]
  simp [List.getLast?_concat]

/-- C5, amended: whenever the run's loop exits *normally* — including
the exit caused by a phase failure — `on_test_end` is called exactly
once; when the loop exits via an uncaught exception (a cycle hook
raising, or `set_error` itself failing), `on_test_end` is NOT called.
In every terminating run, cleanup then executes: the record is left with
`test_stopped = true` and status code Cleanup, `on_stop` is called, and
the disconnect is the very last action — an uncaught exception is
re-raised (returned in the exit component) only with cleanup complete. -/
theorem claim_C5_amended (cfg : EngineCfg) (name : String) (fuel : Nat)
    (rec0 : PluginInterfaceStructure) (hname : name.length < PLUGIN_MAXDISPLAYTEXT) :
    ((runEngine cfg name fuel rec0).1 = .finished →
      (runEngine cfg name fuel rec0).2.events.count .evTestEnd = 1) ∧
    (∀ m, (runEngine cfg name fuel rec0).1 = .exn m →
      (runEngine cfg name fuel rec0).2.events.count .evTestEnd = 0) ∧
    ((runEngine cfg name fuel rec0).1 ≠ .fuelOut →
      (runEngine cfg name fuel rec0).2.record.OUT_bTestStopped = true ∧
      (runEngine cfg name fuel rec0).2.record.OUT_iStatus = StatusCode.plugin_cleanup.toInt ∧
      Ev.evStop ∈ (runEngine cfg name fuel rec0).2.events ∧
      (runEngine cfg name fuel rec0).2.events.getLast? = some .evDisconnect) := by
  unfold runEngine
  dsimp only
  split
  · next r e heq =>
    have h := initialize_interface_ok rec0
    rw [heq] at h
    simp at h
  · next r heq =>
    split
    · next r1 e1 heq1 =>
      have h := window_title_setter_ok r name hname
      rw [heq1] at h
      simp at h
    · next r1 heq1 =>
      split
      · next r2 e2 heq2 =>
        have h := interface_version_setter_4_ok r1
        rw [heq2] at h
        simp at h
      · next r2 heq2 =>
        unfold run_plugin_loop
        rcases hL : loopGo cfg fuel 0 (logEv { record := r2, is_running := true, current_cycle := 0, connected := true, events := [], reads := 0 } Ev.evStart) with ⟨ex, stl⟩
        have hsafe := loopGo_safe cfg fuel 0 (logEv { record := r2, is_running := true, current_cycle := 0, connected := true, events := [], reads := 0 } Ev.evStart)
        rw [hL] at hsafe
        have hcnt := loopSafe_count_testEnd hsafe
        have hzero : (logEv { record := r2, is_running := true, current_cycle := 0, connected := true, events := [], reads := 0 } Ev.evStart).events.count Ev.evTestEnd = 0 := by
          simp [logEv]
        obtain ⟨_, hrun, hconn⟩ := hsafe
        cases ex with
        | finished =>
          dsimp only
          have hcl := cleanupEngine_spec (logEv stl .evTestEnd)
            (by simpa [logEv] using hrun) (by simpa [logEv] using hconn)
          obtain ⟨hts, hstat, hev⟩ := hcl
          refine ⟨?_, ?_, ?_⟩
          · intro _
            rw [hev]
            simp [logEv, List.count_append, hcnt, hzero]
          · intro m hm
            cases hm
          · intro _
            refine ⟨hts, hstat, ?_, ?_⟩
            · rw [hev]
              simp
            · rw [hev]
              exact getLast?_append_pair _ _ _
        | exn m0 =>
          dsimp only
          have hcl := cleanupEngine_spec
            (logEv (logEv stl (.evError ("Error in plugin loop: " ++ m0)))
              (.evError ("Plugin execution failed: " ++ m0)))
            (by simpa [logEv] using hrun) (by simpa [logEv] using hconn)
          obtain ⟨hts, hstat, hev⟩ := hcl
          refine ⟨?_, ?_, ?_⟩
          · intro hf
            cases hf
          · intro m hm
            rw [hev]
            simp [logEv, List.count_append, hcnt, hzero]
          · intro _
            refine ⟨hts, hstat, ?_, ?_⟩
            · rw [hev]
              simp
            · rw [hev]
              exact getLast?_append_pair _ _ _
        | fuelOut =>
          dsimp only
          refine ⟨?_, ?_, ?_⟩
          · intro hf
            cases hf
          · intro m hm
            cases hm
          · intro hno
            exact absurd rfl hno

/-- C5, witness for the amended theorem: the write-failure scenario run,
where the loop exits through a phase failure. -/
theorem claim_C5_witness :
    ("TestPlugin" : String).length < PLUGIN_MAXDISPLAYTEXT ∧
    (((runEngine cfgWriteFails "TestPlugin" 5 recArmed).1 = .finished →
      (runEngine cfgWriteFails "TestPlugin" 5 recArmed).2.events.count .evTestEnd = 1) ∧
    (∀ m, (runEngine cfgWriteFails "TestPlugin" 5 recArmed).1 = .exn m →
      (runEngine cfgWriteFails "TestPlugin" 5 recArmed).2.events.count .evTestEnd = 0) ∧
    ((runEngine cfgWriteFails "TestPlugin" 5 recArmed).1 ≠ .fuelOut →
      (runEngine cfgWriteFails "TestPlugin" 5 recArmed).2.record.OUT_bTestStopped = true ∧
      (runEngine cfgWriteFails "TestPlugin" 5 recArmed).2.record.OUT_iStatus =
        StatusCode.plugin_cleanup.toInt ∧
      Ev.evStop ∈ (runEngine cfgWriteFails "TestPlugin" 5 recArmed).2.events ∧
      (runEngine cfgWriteFails "TestPlugin" 5 recArmed).2.events.getLast? =
        some .evDisconnect)) :=
  ⟨by decide, claim_C5_amended cfgWriteFails "TestPlugin" 5 recArmed (by decide)⟩
